import Mathlib

/-!
Shallow embedding of `src/GL840.py` (class `Graphtec`): a driver for a
Graphtec GL840 data logger.  Readings are triples of strings
`[label, value-text, unit]` scraped from the device status page; the class
reshapes accumulated poll batches into a pandas DataFrame (modelled as an
ordered association list of named columns) and a Python dict (modelled as an
ordered association list keyed by channel label).  Machine floats produced by
Python's `float(...)` on the device's signed decimal literals are modelled
exactly as rationals.
-/

namespace GL840

/-- A reading as scraped from one channel subtable: `[label, value, unit]`
(`GL840.py` line 100: `['CH 1', '-------', 'degC']`). -/
abbrev Reading := List String

/-- One poll batch: one reading per configured channel (`channels_data`). -/
abbrev Batch := List Reading

/-- Python `s.replace(' ', '')`: remove every space character
(`GL840.py` lines 145 and 169). -/
def stripSpaces (s : String) : String :=
  String.mk (s.toList.filter (fun c => c ≠ ' '))

/-- Value of a digit list read in base 10. -/
def digitsVal (cs : List Char) : Nat :=
  cs.foldl (fun acc c => 10 * acc + (c.toNat - 48)) 0

/-- Split a character list at the first `'.'`: returns the part before it and,
when a dot is present, the part after it. -/
def breakDot : List Char → List Char × Option (List Char)
  | [] => ([], none)
  | c :: r =>
      if c = '.' then ([], some r)
      else
        let p := breakDot r
        (c :: p.1, p.2)

/-- Python `float(s)` on the vocabulary the device produces: an optional sign
followed by decimal digits with an optional fractional part (`"+21.48"`,
`"1."`, `".5"`, `"7"`).  Anything else (`"BURNOUT"`, `"-------"`, `""`,
a second dot, ...) raises `ValueError` in Python, modelled as `none`.
Exotic forms (exponents, `inf`/`nan`, underscores) are outside the device's
vocabulary and are likewise rejected. -/
def pyFloat (s : String) : Option Rat :=
  let cs := s.toList
  let sgn : Int :=
    match cs with
    | c :: _ => if c = '-' then -1 else 1
    | [] => 1
  let rest : List Char :=
    match cs with
    | c :: r => if c = '-' || c = '+' then r else cs
    | [] => []
  let p := breakDot rest
  let ip := p.1
  let fp := (p.2).getD []
  if (ip ++ fp).all Char.isDigit && !(ip ++ fp).isEmpty then
    some (mkRat (sgn * (digitsVal ip * 10 ^ fp.length + digitsVal fp))
      (10 ^ fp.length))
  else
    none

/-- The value conversion both reshapers apply to a raw value text:
`float(text.replace(' ', ''))`, with `ValueError` caught and turned into
`None` (`GL840.py` lines 143-147 and 168-171). -/
def parseReading (t : String) : Option Rat :=
  pyFloat (stripSpaces t)

/-- Python's substring test `needle in hay` (`GL840.py` line 65). -/
def pyIn (needle hay : String) : Bool :=
  (List.range (hay.toList.length + 1)).any
    (fun i => needle.toList.isPrefixOf (hay.toList.drop i))

/-- Keyed assignment `container[k] = v` for pandas DataFrame columns
(`df[column_name] = channel_readings`, line 151) and Python dicts
(`data_dict[str(a_ch[0])] = _data`, line 172): when the key is already
present its entry is overwritten in place, otherwise the new entry is
appended at the end (insertion order). -/
def assocSet {β : Type} (d : List (String × β)) (k : String) (v : β) :
    List (String × β) :=
  if d.any (fun p => decide (p.1 = k)) then
    d.map (fun p => if p.1 = k then (k, v) else p)
  else
    d ++ [(k, v)]

/-- Keyed lookup `container[k]`, `none` when the key is absent. -/
def assocGet {β : Type} (d : List (String × β)) (k : String) : Option β :=
  match d with
  | [] => none
  | p :: rest => if p.1 = k then some p.2 else assocGet rest k

/-- Positional lookup, `none` out of bounds. -/
def listNth {α : Type} (l : List α) (n : Nat) : Option α :=
  match l, n with
  | [], _ => none
  | a :: _, 0 => some a
  | _ :: t, n + 1 => listNth t n

/-- Python `l[-1]`: the last element of a list (`data_list[-1]`, line 167);
the fallback stands in for the `IndexError` on an empty list, which the
callers guard against. -/
def pyLast {α : Type} (d : α) : List α → α
  | [] => d
  | [a] => a
  | _ :: b :: t => pyLast d (b :: t)

/-- Column name `f"GRPH {channel_name} [{channel_unit}]"` built from a
first-batch reading (`GL840.py` lines 132-134: name is index 0, unit is
index 2). -/
def colName (r : Reading) : String :=
  "GRPH " ++ r.getD 0 "" ++ " [" ++ r.getD 2 "" ++ "]"

/-- `channel_count = len(data_list[0])` (`GL840.py` line 126). -/
def channelCount (dl : List Batch) : Nat :=
  (dl.headD []).length

/-- The DataFrame built by `add_channel_data_to_df` on a non-empty
`data_list`: for each channel index, a column named from the first batch's
label and unit holding that channel's parsed value for every row
(`GL840.py` lines 126-151). -/
def dfColumns (dl : List Batch) : List (String × List (Option Rat)) :=
  (List.range (channelCount dl)).foldl
    (fun df c =>
      assocSet df (colName ((dl.headD []).getD c []))
        (dl.map (fun row => parseReading ((row.getD c []).getD 1 ""))))
    []

/-- `add_channel_data_to_df` (`GL840.py` lines 116-153).  `none` input models
`data_list=None`; a `none` result models the fall-through `return None` taken
when there is no data. -/
def add_channel_data_to_df (data_list : Option (List Batch)) :
    Option (List (String × List (Option Rat))) :=
  match data_list with
  | none => none
  | some [] => none
  | some (first :: rest) => some (dfColumns (first :: rest))

/-- The dict built from one batch: for each reading, key `str(a_ch[0])` and
value `float(a_ch[1].replace(" ", ""))`-or-`None` (`GL840.py` lines
166-172). -/
def dictOf (b : Batch) : List (String × Option Rat) :=
  b.foldl
    (fun d a_ch => assocSet d (a_ch.getD 0 "") (parseReading (a_ch.getD 1 "")))
    []

/-- `add_channel_data_to_dict` (`GL840.py` lines 155-173): builds the dict
from `data_list[-1]` only. -/
def add_channel_data_to_dict (data_list : Option (List Batch)) :
    Option (List (String × Option Rat)) :=
  match data_list with
  | none => none
  | some [] => none
  | some (first :: rest) => some (dictOf (pyLast [] (first :: rest)))

/-- `append_graphtec_readings` (`GL840.py` lines 74-114), abstracted over the
HTTP layer: `fetchAt k` is the page text the device status URL would return
for the k-th GET issued, and `parseResponse` is the deterministic
BeautifulSoup extraction of the channel readings from one page text.  The
code issues a single `get(...)` BEFORE the loop (line 84) and re-parses that
same response on every iteration, so every batch comes from `fetchAt 0`. -/
def append_graphtec_readings {α : Type} (fetchAt : Nat → α)
    (parseResponse : α → Batch) (num : Nat) : List Batch :=
  let response := fetchAt 0
  (List.range num).map (fun _ => parseResponse response)

/-- Modelled from the spec: the Reading Scraper "Repeats the fetch-and-parse
cycle for a caller-specified number of polls", i.e. every poll performs its
own fetch of the status page before parsing.  This is the behaviour the
claim and the function's own docstring describe; the source's single
pre-loop fetch is missing it. -/
def append_graphtec_readings_spec {α : Type} (fetchAt : Nat → α)
    (parseResponse : α → Batch) (num : Nat) : List Batch :=
  (List.range num).map (fun i => parseResponse (fetchAt i))

/-- Layout invariant of an accumulation (spec §3): non-empty, every batch has
the first batch's channel count, and each channel's reading is a
label/value/unit triple carrying the first batch's label and unit. -/
def sameLayoutB (dl : List Batch) : Bool :=
  match dl with
  | [] => false
  | first :: _ =>
      dl.all (fun b =>
        decide (b.length = first.length) &&
        (List.range first.length).all (fun c =>
          decide ((b.getD c []).length = 3) &&
          decide ((b.getD c []).getD 0 "" = (first.getD c []).getD 0 "") &&
          decide ((b.getD c []).getD 2 "" = (first.getD c []).getD 2 "")))

/-- Raw value text of row `r`, channel `c` (`row[channel_ind][reading_index]`,
line 140). -/
def cellTextAt (dl : List Batch) (r c : Nat) : String :=
  ((dl.getD r []).getD c []).getD 1 ""

/-- The cell of the derived table in column `name`, row `r`: `none` when the
column or row does not exist, `some v` when the cell holds `v` (itself
`none` for a missing value). -/
def dfValueAt (dfOpt : Option (List (String × List (Option Rat))))
    (name : String) (r : Nat) : Option (Option Rat) :=
  dfOpt.bind (fun df => (assocGet df name).bind (fun col => listNth col r))

/-- The entry of the derived last-value map at key `k`. -/
def dictValueAt (dOpt : Option (List (String × Option Rat))) (k : String) :
    Option (Option Rat) :=
  dOpt.bind (fun d => assocGet d k)

/- ---------------------------------------------------------------------
Device session model (`__init__`, `connect`, `identify_device`, `close`,
`GL840.py` lines 10-72 and 175-178).  The PyVISA layer is abstracted by an
environment recording which exception, if any, `open_resource` raises and
what the `*IDN?` query yields; the exceptions the code names are modelled
explicitly.
--------------------------------------------------------------------- -/

/-- The Python exceptions the session code distinguishes. -/
inductive PyErr where
  | osError
  | attributeError
  | visaIOError
deriving DecidableEq

/-- Outcome of `rm.open_resource(...)` (line 36): success, or one of the
exceptions `connect` catches.  The code's own comments (lines 37-44 and 53)
identify `VisaIOError` as the outcome when the instrument cannot be
reached. -/
inductive OpenOutcome where
  | ok
  | osErr
  | attrErr
  | visaErr
deriving DecidableEq

/-- Outcome of `self._my_instrument.query("*IDN?")` (line 63): an identity
string, or one of the failures `identify_device` catches. -/
inductive QueryOutcome where
  | ok (s : String)
  | visaErr
  | typeErr
deriving DecidableEq

/-- The external behaviour of the PyVISA layer for one connect attempt. -/
structure Env where
  openOutcome : OpenOutcome
  queryOutcome : QueryOutcome
deriving DecidableEq

/-- The session attributes of a `Graphtec` object: `_address`,
`_name_string`, `_my_instrument` (present or nulled), `_ident`, and
`connected`. -/
structure GraphtecState where
  address : String
  name_string : String
  my_instrument : Option Unit
  ident : Option String
  connected : Bool
deriving DecidableEq

/-- `close` (`GL840.py` lines 175-178): `self._my_instrument.close()` then
`self._my_instrument = None`.  When the handle has already been nulled,
`None.close()` raises `AttributeError`. -/
def close (s : GraphtecState) : Except PyErr GraphtecState :=
  match s.my_instrument with
  | none => Except.error PyErr.attributeError
  | some _ => Except.ok { s with my_instrument := none }

/-- `identify_device` (`GL840.py` lines 56-72): queries `*IDN?`, stores the
identity, asserts the expected name substring occurs in it; on
`AssertionError`, `TypeError` or `VisaIOError` it closes the resource, sets
`self.connected = False` and returns `False`.  Calling it with a nulled
handle would raise an uncaught `AttributeError` from `None.query`. -/
def identify_device (env : Env) (s : GraphtecState) :
    Except PyErr (GraphtecState × Bool) :=
  match s.my_instrument with
  | none => Except.error PyErr.attributeError
  | some _ =>
      match env.queryOutcome with
      | QueryOutcome.ok r =>
          if pyIn s.name_string r then
            Except.ok ({ s with ident := some r }, true)
          else
            Except.ok
              ({ s with ident := some r, my_instrument := none,
                        connected := false }, false)
      | QueryOutcome.visaErr =>
          Except.ok ({ s with my_instrument := none, connected := false },
            false)
      | QueryOutcome.typeErr =>
          Except.ok ({ s with my_instrument := none, connected := false },
            false)

/-- `connect` (`GL840.py` lines 25-54): opens the TCPIP socket resource and
delegates to `identify_device`.  `OSError` and `AttributeError` are printed
and re-raised (fatal); `VisaIOError` — the "cannot connect" case per the
code's own message on line 53 — is printed and swallowed, leaving
`connected = False`. -/
def connect (env : Env) (s : GraphtecState) :
    Except PyErr (GraphtecState × Bool) :=
  match env.openOutcome with
  | OpenOutcome.osErr => Except.error PyErr.osError
  | OpenOutcome.attrErr => Except.error PyErr.attributeError
  | OpenOutcome.visaErr => Except.ok (s, false)
  | OpenOutcome.ok => identify_device env { s with my_instrument := some () }

/-- The attribute state right after the assignments at the top of
`__init__` (lines 11-14), before `self.connected = self.connect()`. -/
def initState (address name_string : String) : GraphtecState :=
  { address := address, name_string := name_string, my_instrument := none,
    ident := none, connected := false }

/-- `__init__` (`GL840.py` lines 10-16): construct the session and set
`self.connected` from `connect`'s result. -/
def graphtecInit (env : Env) (address name_string : String) :
    Except PyErr GraphtecState :=
  match connect env (initState address name_string) with
  | Except.error e => Except.error e
  | Except.ok (s1, b) => Except.ok { s1 with connected := b }

/-- A query outcome that makes `identify_device` take its failure branch for
a session expecting `name`: a mismatching identity, or a caught query
exception. -/
def queryMismatch (q : QueryOutcome) (name : String) : Bool :=
  match q with
  | QueryOutcome.ok r => !(pyIn name r)
  | QueryOutcome.visaErr => true
  | QueryOutcome.typeErr => true

/-- A one-poll accumulation in which two channels carry the same label and
the same unit, so their column names coincide. -/
def cexDupCols : List Batch :=
  [[["CH 1", "+ 1.0", "degC"], ["CH 1", "+ 2.0", "degC"]]]

/-- A one-poll accumulation in which two channels share a label but have
different units, so their column names differ while their dict keys
coincide. -/
def cexDupLabels : List Batch := [[["A", "1", "x"], ["A", "2", "y"]]]

/-- A one-poll accumulation with a BURNOUT channel next to a numeric one. -/
def dataBurnout : List Batch :=
  [[["CH 1", "BURNOUT", "degC"], ["CH 2", "+ 21.48", "degC"]]]

/-- Two polls of a two-channel layout. -/
def dataTwoPolls : List Batch :=
  [[["CH 1", "+ 1", "degC"], ["CH 2", "+ 2", "degC"]],
   [["CH 1", "+ 3", "degC"], ["CH 2", "+ 4", "degC"]]]

/-- A two-poll accumulation whose final batch is the single batch of
`dataHistShort`. -/
def dataHistLong : List Batch :=
  [[["CH 1", "+ 1", "degC"]], [["CH 1", "+ 2", "degC"]]]

/-- A one-poll accumulation equal to the final batch of `dataHistLong`. -/
def dataHistShort : List Batch := [[["CH 1", "+ 2", "degC"]]]

/-- A session state whose resource handle is present. -/
def sampleState : GraphtecState :=
  { address := "192.168.0.1", name_string := "GRAPHTEC",
    my_instrument := some (), ident := none, connected := true }

/-- PyVISA behaviour: `open_resource` fails with `VisaIOError`, the
library's error when the instrument cannot be reached (`GL840.py` lines
37-44 and 53). -/
def envUnreachable : Env :=
  { openOutcome := OpenOutcome.visaErr, queryOutcome := QueryOutcome.visaErr }

/-- PyVISA behaviour: open succeeds and the identity query answers a string
lacking the expected name. -/
def envWrongId : Env :=
  { openOutcome := OpenOutcome.ok, queryOutcome := QueryOutcome.ok "WRONG,DEV,1" }

/-- PyVISA behaviour: open succeeds and the identity query answers a
GRAPHTEC identity. -/
def envGoodId : Env :=
  { openOutcome := OpenOutcome.ok,
    queryOutcome := QueryOutcome.ok "GRAPHTEC,GL840,SN1" }

/- ---------------------------------------------------------------------
Helper lemmas about the container model.
--------------------------------------------------------------------- -/

theorem listNth_map {α β : Type} (f : α → β) :
    ∀ (l : List α) (i : Nat), listNth (l.map f) i = (listNth l i).map f := by
  intro l
  induction l with
  | nil => intro i; rfl
  | cons a t ih =>
      intro i
      cases i with
      | zero => rfl
      | succ j => exact ih j

theorem listNth_of_lt {α : Type} :
    ∀ (l : List α) (i : Nat) (d : α), i < l.length →
      listNth l i = some (l.getD i d) := by
  intro l
  induction l with
  | nil => intro i d h; exact absurd h (by simp)
  | cons a t ih =>
      intro i d h
      cases i with
      | zero => rfl
      | succ j =>
          have hj : j < t.length := by
            simp only [List.length_cons] at h
            omega
          exact ih j d hj

theorem listNth_of_ge {α : Type} :
    ∀ (l : List α) (i : Nat), l.length ≤ i → listNth l i = none := by
  intro l
  induction l with
  | nil => intro i _; rfl
  | cons a t ih =>
      intro i h
      cases i with
      | zero => simp at h
      | succ j =>
          have hj : t.length ≤ j := by
            simp only [List.length_cons] at h
            omega
          exact ih j hj

theorem listNth_ext {α : Type} :
    ∀ (l1 l2 : List α), (∀ i, listNth l1 i = listNth l2 i) → l1 = l2 := by
  intro l1
  induction l1 with
  | nil =>
      intro l2 h
      cases l2 with
      | nil => rfl
      | cons b t2 => exact absurd (h 0) (by simp [listNth])
  | cons a t ih =>
      intro l2 h
      cases l2 with
      | nil => exact absurd (h 0) (by simp [listNth])
      | cons b t2 =>
          have h0 : a = b := by
            have := h 0
            simpa [listNth] using this
          have ht : t = t2 := ih t2 (fun i => h (i + 1))
          rw [h0, ht]

theorem listNth_mem {α : Type} :
    ∀ (l : List α) (i : Nat) (a : α), listNth l i = some a → a ∈ l := by
  intro l
  induction l with
  | nil => intro i a h; exact absurd h (by simp [listNth])
  | cons b t ih =>
      intro i a h
      cases i with
      | zero =>
          have : b = a := by simpa [listNth] using h
          rw [this] at *
          exact List.mem_cons_self a t
      | succ j => exact List.mem_cons_of_mem b (ih j a h)

theorem listNth_range : ∀ (n c : Nat), c < n → listNth (List.range n) c = some c := by
  intro n
  induction n with
  | zero => intro c hc; exact absurd hc (by omega)
  | succ m ih =>
      intro c hc
      rw [List.range_succ_eq_map]
      cases c with
      | zero => rfl
      | succ k =>
          show listNth (List.map Nat.succ (List.range m)) k = some (k + 1)
          rw [listNth_map, ih k (by omega)]
          rfl

theorem pyLast_mem {α : Type} (d : α) :
    ∀ (l : List α), l ≠ [] → pyLast d l ∈ l := by
  intro l
  induction l with
  | nil => intro h; exact absurd rfl h
  | cons a t ih =>
      intro _
      cases t with
      | nil => simp [pyLast]
      | cons b t2 =>
          have hm := ih (by simp)
          show pyLast d (b :: t2) ∈ a :: b :: t2
          exact List.mem_cons_of_mem a hm

theorem pyLast_eq_getD {α : Type} (d d' : α) :
    ∀ (l : List α), l ≠ [] → l.getD (l.length - 1) d = pyLast d' l := by
  intro l
  induction l with
  | nil => intro h; exact absurd rfl h
  | cons a t ih =>
      intro _
      cases t with
      | nil => rfl
      | cons b t2 =>
          have hlen : (a :: b :: t2 : List α).length - 1
              = ((b :: t2 : List α).length - 1) + 1 := by
            simp only [List.length_cons]
            omega
          rw [hlen]
          show (b :: t2).getD ((b :: t2 : List α).length - 1) d = pyLast d' (b :: t2)
          exact ih (by simp)

theorem assocSet_of_not_mem {β : Type} (d : List (String × β)) (k : String)
    (v : β) (h : ∀ p ∈ d, p.1 ≠ k) : assocSet d k v = d ++ [(k, v)] := by
  have hc : d.any (fun p => decide (p.1 = k)) = false := by
    rw [List.any_eq_false]
    intro p hp
    simpa using h p hp
  simp [assocSet, hc]

theorem foldl_assocSet_eq {α β : Type}
    (f : List (String × β) → α → List (String × β))
    (key : α → String) (val : α → β)
    (hstep : ∀ d a, f d a = assocSet d (key a) (val a)) :
    ∀ (l : List α) (d0 : List (String × β)),
      (∀ a ∈ l, ∀ p ∈ d0, p.1 ≠ key a) → (l.map key).Nodup →
      l.foldl f d0 = d0 ++ l.map (fun a => (key a, val a)) := by
  intro l
  induction l with
  | nil => intro d0 _ _; simp
  | cons a t ih =>
      intro d0 hfresh hnodup
      rw [List.map_cons] at hnodup
      have hnd := List.nodup_cons.mp hnodup
      simp only [List.foldl_cons, List.map_cons]
      rw [hstep]
      rw [assocSet_of_not_mem d0 (key a) (val a)
        (fun p hp => hfresh a (List.mem_cons_self a t) p hp)]
      have hf : ∀ b ∈ t, ∀ p ∈ d0 ++ [(key a, val a)], p.1 ≠ key b := by
        intro b hb p hp
        rcases List.mem_append.mp hp with hp0 | hp1
        · exact hfresh b (List.mem_cons_of_mem a hb) p hp0
        · have hpe : p = (key a, val a) := by simpa using hp1
          subst hpe
          intro hkey
          have hkey' : key a = key b := hkey
          exact hnd.1 (by rw [hkey']; exact List.mem_map_of_mem key hb)
      rw [ih (d0 ++ [(key a, val a)]) hf hnd.2]
      simp

theorem assocGet_of_map {α β : Type} (key : α → String) (val : α → β) :
    ∀ (l : List α) (c : α), c ∈ l → (l.map key).Nodup →
      assocGet (l.map (fun a => (key a, val a))) (key c) = some (val c) := by
  intro l
  induction l with
  | nil => intro c hc _; exact absurd hc (List.not_mem_nil c)
  | cons a t ih =>
      intro c hc hnodup
      rw [List.map_cons] at hnodup
      have hnd := List.nodup_cons.mp hnodup
      rcases List.mem_cons.mp hc with hca | hct
      · subst hca
        simp [assocGet]
      · have hne : key a ≠ key c := by
          intro he
          exact hnd.1 (by rw [he]; exact List.mem_map_of_mem key hct)
        simp only [List.map_cons]
        show (if key a = key c then some (val a)
            else assocGet (t.map (fun a => (key a, val a))) (key c)) = some (val c)
        rw [if_neg hne]
        exact ih c hct hnd.2

/- ---------------------------------------------------------------------
Characterizations of the two reshapers.
--------------------------------------------------------------------- -/

theorem sameLayout_facts (dl : List Batch) (h : sameLayoutB dl = true) :
    dl ≠ [] ∧
    ∀ b ∈ dl, b.length = channelCount dl ∧
      ∀ c, c < channelCount dl →
        (b.getD c []).length = 3 ∧
        (b.getD c []).getD 0 "" = ((dl.headD []).getD c []).getD 0 "" ∧
        (b.getD c []).getD 2 "" = ((dl.headD []).getD c []).getD 2 "" := by
  cases dl with
  | nil => simp [sameLayoutB] at h
  | cons first rest =>
      refine ⟨by simp, ?_⟩
      intro b hb
      simp only [sameLayoutB, List.all_eq_true, Bool.and_eq_true,
        decide_eq_true_eq, List.mem_range] at h
      obtain ⟨h1, h2⟩ := h b hb
      constructor
      · simpa [channelCount] using h1
      · intro c hc
        have hc1 : c < first.length := by simpa [channelCount] using hc
        obtain ⟨⟨hA, hB⟩, hC⟩ := h2 c hc1
        exact ⟨hA, by simpa using hB, by simpa using hC⟩

theorem sameLayout_ne_nil (dl : List Batch) (h : sameLayoutB dl = true) :
    dl ≠ [] := by
  cases dl with
  | nil => simp [sameLayoutB] at h
  | cons first rest => simp

set_option maxHeartbeats 1000000 in
theorem df_spec (first : Batch) (rest : List Batch)
    (hnodup : ((List.range first.length).map
      (fun c => colName (first.getD c []))).Nodup) :
    add_channel_data_to_df (some (first :: rest)) =
      some ((List.range first.length).map (fun c =>
        (colName (first.getD c []),
         (first :: rest).map
           (fun row => parseReading ((row.getD c []).getD 1 ""))))) := by
  have h := foldl_assocSet_eq
      (fun df c => assocSet df (colName (first.getD c []))
        ((first :: rest).map
          (fun row => parseReading ((row.getD c []).getD 1 ""))))
      (fun c => colName (first.getD c []))
      (fun c => (first :: rest).map
        (fun row => parseReading ((row.getD c []).getD 1 "")))
      (fun d a => rfl)
      (List.range first.length) []
      (fun a _ p hp => absurd hp (List.not_mem_nil p))
      hnodup
  simp only [add_channel_data_to_df]
  unfold dfColumns
  simp only [channelCount, List.headD_cons]
  rw [h]
  simp

theorem dictOf_eq_map (b : Batch)
    (hnodup : (b.map (fun rd => rd.getD 0 "")).Nodup) :
    dictOf b = b.map (fun rd => (rd.getD 0 "", parseReading (rd.getD 1 ""))) := by
  have h := foldl_assocSet_eq
      (fun d a_ch => assocSet d (a_ch.getD 0 "")
        (parseReading (a_ch.getD 1 "")))
      (fun rd => rd.getD 0 "")
      (fun rd => parseReading (rd.getD 1 ""))
      (fun d a => rfl)
      b []
      (fun a _ p hp => absurd hp (List.not_mem_nil p))
      hnodup
  unfold dictOf
  rw [h]
  simp

theorem dfValueAt_spec (dl : List Batch) (r c : Nat)
    (hsl : sameLayoutB dl = true)
    (hcols : ((List.range (channelCount dl)).map
      (fun i => colName ((dl.headD []).getD i []))).Nodup)
    (hr : r < dl.length) (hc : c < channelCount dl) :
    dfValueAt (add_channel_data_to_df (some dl))
        (colName ((dl.headD []).getD c [])) r
      = some (parseReading (cellTextAt dl r c)) := by
  cases dl with
  | nil => simp [sameLayoutB] at hsl
  | cons first rest =>
      have hc1 : c < first.length := by simpa [channelCount] using hc
      have hcols1 : ((List.range first.length).map
          (fun i => colName (first.getD i []))).Nodup := by
        simpa [channelCount] using hcols
      have hget := assocGet_of_map
          (fun i => colName (first.getD i []))
          (fun i => (first :: rest).map
            (fun row => parseReading ((row.getD i []).getD 1 "")))
          (List.range first.length) c (List.mem_range.mpr hc1) hcols1
      rw [df_spec first rest hcols1]
      simp only [dfValueAt, Option.some_bind, List.headD_cons]
      rw [hget]
      simp only [Option.some_bind]
      rw [listNth_map, listNth_of_lt (first :: rest) r [] hr]
      rfl

theorem lastBatch_labels_eq (dl : List Batch) (hsl : sameLayoutB dl = true) :
    (pyLast [] dl).map (fun rd => rd.getD 0 "")
      = (dl.headD []).map (fun rd => rd.getD 0 "") := by
  obtain ⟨hne, hall⟩ := sameLayout_facts dl hsl
  have hmem : pyLast [] dl ∈ dl := pyLast_mem [] dl hne
  obtain ⟨hlen, hfields⟩ := hall (pyLast [] dl) hmem
  have hlenh : (dl.headD []).length = channelCount dl := by
    cases dl with
    | nil => exact absurd rfl hne
    | cons first rest => simp [channelCount]
  apply listNth_ext
  intro i
  by_cases hi : i < channelCount dl
  · rw [listNth_map, listNth_map]
    rw [listNth_of_lt (pyLast [] dl) i [] (by rw [hlen]; exact hi)]
    rw [listNth_of_lt (dl.headD []) i [] (by rw [hlenh]; exact hi)]
    show some (((pyLast [] dl).getD i []).getD 0 "")
        = some (((dl.headD []).getD i []).getD 0 "")
    exact congrArg some ((hfields i hi).2.1)
  · rw [listNth_map, listNth_map]
    rw [listNth_of_ge (pyLast [] dl) i (by rw [hlen]; omega)]
    rw [listNth_of_ge (dl.headD []) i (by rw [hlenh]; omega)]

theorem dictValueAt_spec (dl : List Batch) (c : Nat)
    (hsl : sameLayoutB dl = true)
    (hlabels : ((dl.headD []).map (fun rd => rd.getD 0 "")).Nodup)
    (hc : c < channelCount dl) :
    dictValueAt (add_channel_data_to_dict (some dl))
        (((dl.headD []).getD c []).getD 0 "")
      = some (parseReading (cellTextAt dl (dl.length - 1) c)) := by
  obtain ⟨hne, hall⟩ := sameLayout_facts dl hsl
  have hmem : pyLast [] dl ∈ dl := pyLast_mem [] dl hne
  obtain ⟨hlen, hfields⟩ := hall (pyLast [] dl) hmem
  have hlblnodup : ((pyLast [] dl).map (fun rd => rd.getD 0 "")).Nodup := by
    rw [lastBatch_labels_eq dl hsl]
    exact hlabels
  have hcl : c < (pyLast [] dl).length := by rw [hlen]; exact hc
  have hclmem : (pyLast [] dl).getD c [] ∈ pyLast [] dl :=
    listNth_mem (pyLast [] dl) c ((pyLast [] dl).getD c [])
      (listNth_of_lt (pyLast [] dl) c [] hcl)
  have hget := assocGet_of_map
      (fun rd => rd.getD 0 "")
      (fun rd => parseReading (rd.getD 1 ""))
      (pyLast [] dl) ((pyLast [] dl).getD c []) hclmem hlblnodup
  have hkey : (((pyLast [] dl).getD c []).getD 0 "")
      = ((dl.headD []).getD c []).getD 0 "" := (hfields c hc).2.1
  cases dl with
  | nil => exact absurd rfl hne
  | cons first rest =>
      show dictValueAt (some (dictOf (pyLast [] (first :: rest)))) _ = _
      rw [dictValueAt]
      simp only [Option.some_bind]
      rw [dictOf_eq_map (pyLast [] (first :: rest)) hlblnodup]
      rw [← hkey]
      rw [hget]
      have hcell : cellTextAt (first :: rest) ((first :: rest).length - 1) c
          = ((pyLast [] (first :: rest)).getD c []).getD 1 "" := by
        unfold cellTextAt
        rw [pyLast_eq_getD [] [] (first :: rest) (by simp)]
      rw [hcell]

/- ---------------------------------------------------------------------
Claim theorems.
--------------------------------------------------------------------- -/

/-- Claim C1: the claim (and the function's own docstring and example
output) describe a fresh fetch-and-parse cycle per poll, but the code
issues its single HTTP GET before the loop and re-parses the same response
on every iteration.  With two successive device pages that parse to
different single-channel batches, the code returns the first page's batch
twice, while the fresh-fetch behaviour the claim states returns both
pages' batches. -/
theorem append_readings_single_fetch_bug :
    append_graphtec_readings
        (fun i => if i = 0 then "page0" else "page1")
        (fun s => [["CH 1", s, "degC"]]) 2
      = [[["CH 1", "page0", "degC"]], [["CH 1", "page0", "degC"]]] ∧
    append_graphtec_readings_spec
        (fun i => if i = 0 then "page0" else "page1")
        (fun s => [["CH 1", s, "degC"]]) 2
      = [[["CH 1", "page0", "degC"]], [["CH 1", "page1", "degC"]]] ∧
    append_graphtec_readings
        (fun i => if i = 0 then "page0" else "page1")
        (fun s => [["CH 1", s, "degC"]]) 2
      ≠ append_graphtec_readings_spec
        (fun i => if i = 0 then "page0" else "page1")
        (fun s => [["CH 1", s, "degC"]]) 2 := by
  refine ⟨rfl, rfl, ?_⟩
  decide

/-- Claim C2 is false as stated: when the PyVISA layer fails to open the
socket with `VisaIOError` — the library's error for an unconnectable host,
the case `connect` itself logs as "cannot connect to ...; but keep
going..." — `connect` does not raise; it returns normally with `False`. -/
theorem connect_visa_error_returns_normally :
    connect envUnreachable (initState "192.168.0.1" "GRAPHTEC")
      = Except.ok (initState "192.168.0.1" "GRAPHTEC", false) ∧
    ¬ ∃ e : PyErr, connect envUnreachable (initState "192.168.0.1" "GRAPHTEC")
      = Except.error e := by
  refine ⟨rfl, ?_⟩
  rintro ⟨e, he⟩
  rw [show connect envUnreachable (initState "192.168.0.1" "GRAPHTEC")
    = Except.ok (initState "192.168.0.1" "GRAPHTEC", false) from rfl] at he
  exact Except.noConfusion he

/-- Claim C2 (amended): `connect` treats failure to reach the host
(`VisaIOError` from `open_resource`) as non-fatal — logged and returned as
false — while `OSError` and `AttributeError` during connect are re-raised
as fatal; a reachable host answering the wrong identity is non-fatal:
logged, resource released, session marked not-connected, and `connect`
returns false. -/
theorem connect_error_discipline (env : Env) (s : GraphtecState) (r : String) :
    (env.openOutcome = OpenOutcome.visaErr →
      connect env s = Except.ok (s, false)) ∧
    (env.openOutcome = OpenOutcome.osErr →
      connect env s = Except.error PyErr.osError) ∧
    (env.openOutcome = OpenOutcome.attrErr →
      connect env s = Except.error PyErr.attributeError) ∧
    (env.openOutcome = OpenOutcome.ok →
      env.queryOutcome = QueryOutcome.ok r →
      pyIn s.name_string r = false →
      connect env s = Except.ok ({ s with my_instrument := none,
                                          ident := some r,
                                          connected := false }, false)) := by
  refine ⟨?_, ?_, ?_, ?_⟩
  · intro h; simp [connect, h]
  · intro h; simp [connect, h]
  · intro h; simp [connect, h]
  · intro ho hq hr
    simp [connect, ho, identify_device, hq, hr]

/-- Witness for the amended C2: open succeeds, the identity is wrong, and
`connect` returns false without raising. -/
theorem connect_error_discipline_witness :
    envWrongId.openOutcome = OpenOutcome.ok ∧
    envWrongId.queryOutcome = QueryOutcome.ok "WRONG,DEV,1" ∧
    pyIn (initState "192.168.0.1" "GRAPHTEC").name_string "WRONG,DEV,1"
      = false ∧
    connect envWrongId (initState "192.168.0.1" "GRAPHTEC")
      = Except.ok ({ initState "192.168.0.1" "GRAPHTEC" with
          my_instrument := none, ident := some "WRONG,DEV,1",
          connected := false }, false) :=
  ⟨rfl, rfl, by decide,
    (connect_error_discipline envWrongId (initState "192.168.0.1" "GRAPHTEC")
      "WRONG,DEV,1").2.2.2 rfl rfl (by decide)⟩

/-- Claim C3: whenever the identity response lacks the expected name
substring, or the identity query fails with one of the caught exceptions,
`identify_device` closes and releases the instrument resource, sets the
session's connected flag to false, and returns false. -/
theorem identify_failure_closes_and_flags (env : Env) (s : GraphtecState)
    (hinstr : s.my_instrument = some ())
    (hfail : queryMismatch env.queryOutcome s.name_string = true) :
    ∃ s2, identify_device env s = Except.ok (s2, false) ∧
      s2.my_instrument = none ∧ s2.connected = false := by
  cases hq : env.queryOutcome with
  | ok r =>
      have hr : pyIn s.name_string r = false := by
        rw [hq] at hfail
        simpa [queryMismatch] using hfail
      refine ⟨{ s with ident := some r, my_instrument := none,
                       connected := false }, ?_, rfl, rfl⟩
      simp [identify_device, hinstr, hq, hr]
  | visaErr =>
      refine ⟨{ s with my_instrument := none, connected := false },
        ?_, rfl, rfl⟩
      simp [identify_device, hinstr, hq]
  | typeErr =>
      refine ⟨{ s with my_instrument := none, connected := false },
        ?_, rfl, rfl⟩
      simp [identify_device, hinstr, hq]

/-- Witness for C3: a present instrument answering a non-GRAPHTEC
identity. -/
theorem identify_failure_closes_and_flags_witness :
    sampleState.my_instrument = some () ∧
    queryMismatch envWrongId.queryOutcome sampleState.name_string = true ∧
    ∃ s2, identify_device envWrongId sampleState = Except.ok (s2, false) ∧
      s2.my_instrument = none ∧ s2.connected = false :=
  ⟨rfl, by decide,
    identify_failure_closes_and_flags envWrongId sampleState rfl (by decide)⟩

/-- Claim C4: under the batch-layout invariant with distinct column names
and distinct channel labels, a cell whose raw text is the sentinel
"BURNOUT" appears in the derived table and (for the final batch) in the
last-value map as the missing-value marker, while any cell whose
space-stripped text parses as a number appears as that parsed value; the
conversion never raises (the embedding of both reshapers is total). -/
theorem burnout_cells_become_missing (dl : List Batch) (r c : Nat)
    (hsl : sameLayoutB dl = true)
    (hcols : ((List.range (channelCount dl)).map
      (fun i => colName ((dl.headD []).getD i []))).Nodup)
    (hlabels : ((dl.headD []).map (fun rd => rd.getD 0 "")).Nodup)
    (hr : r < dl.length) (hc : c < channelCount dl) :
    (cellTextAt dl r c = "BURNOUT" →
      dfValueAt (add_channel_data_to_df (some dl))
        (colName ((dl.headD []).getD c [])) r = some none) ∧
    (∀ q : Rat, parseReading (cellTextAt dl r c) = some q →
      dfValueAt (add_channel_data_to_df (some dl))
        (colName ((dl.headD []).getD c [])) r = some (some q)) ∧
    (cellTextAt dl (dl.length - 1) c = "BURNOUT" →
      dictValueAt (add_channel_data_to_dict (some dl))
        (((dl.headD []).getD c []).getD 0 "") = some none) ∧
    (∀ q : Rat, parseReading (cellTextAt dl (dl.length - 1) c) = some q →
      dictValueAt (add_channel_data_to_dict (some dl))
        (((dl.headD []).getD c []).getD 0 "") = some (some q)) := by
  have hdf := dfValueAt_spec dl r c hsl hcols hr hc
  have hdict := dictValueAt_spec dl c hsl hlabels hc
  refine ⟨?_, ?_, ?_, ?_⟩
  · intro hb
    rw [hdf, hb]
    decide
  · intro q hq
    rw [hdf, hq]
  · intro hb
    rw [hdict, hb]
    decide
  · intro q hq
    rw [hdict, hq]

/-- Witness for C4 at a one-poll batch holding a BURNOUT channel next to a
numeric channel. -/
theorem burnout_cells_become_missing_witness :
    (sameLayoutB dataBurnout = true ∧
     (0 : Nat) < dataBurnout.length ∧
     (0 : Nat) < channelCount dataBurnout) ∧
    ((cellTextAt dataBurnout 0 0 = "BURNOUT" →
      dfValueAt (add_channel_data_to_df (some dataBurnout))
        (colName ((dataBurnout.headD []).getD 0 [])) 0 = some none) ∧
    (∀ q : Rat, parseReading (cellTextAt dataBurnout 0 0) = some q →
      dfValueAt (add_channel_data_to_df (some dataBurnout))
        (colName ((dataBurnout.headD []).getD 0 [])) 0 = some (some q)) ∧
    (cellTextAt dataBurnout (dataBurnout.length - 1) 0 = "BURNOUT" →
      dictValueAt (add_channel_data_to_dict (some dataBurnout))
        (((dataBurnout.headD []).getD 0 []).getD 0 "") = some none) ∧
    (∀ q : Rat,
      parseReading (cellTextAt dataBurnout (dataBurnout.length - 1) 0)
        = some q →
      dictValueAt (add_channel_data_to_dict (some dataBurnout))
        (((dataBurnout.headD []).getD 0 []).getD 0 "") = some (some q))) :=
  ⟨⟨by decide, by decide, by decide⟩,
    burnout_cells_become_missing dataBurnout 0 0 (by decide) (by decide)
      (by decide) (by decide) (by decide)⟩

/-- Claim C5 fails as stated: in `cexDupCols` one batch holds two channels
whose label and unit coincide, the second pandas column assignment
overwrites the first, and the table ends with a single column although
there are two channels. -/
theorem df_duplicate_column_name_collapse :
    sameLayoutB cexDupCols = true ∧
    channelCount cexDupCols = 2 ∧
    add_channel_data_to_df (some cexDupCols)
      = some [("GRPH CH 1 [degC]", [some (mkRat 2 1)])] ∧
    ∀ df, add_channel_data_to_df (some cexDupCols) = some df →
      ¬ df.length = channelCount cexDupCols := by
  refine ⟨by decide, by decide, by decide, ?_⟩
  intro df hdf
  have h2 : add_channel_data_to_df (some cexDupCols)
      = some [("GRPH CH 1 [degC]", [some (mkRat 2 1)])] := by decide
  rw [h2] at hdf
  rw [← Option.some.inj hdf]
  decide

/-- Claim C5 (amended): for a non-empty layout-invariant accumulation of N
batches whose channel column names are pairwise distinct, the derived
table has exactly one column per channel — the c-th column named
"GRPH label [unit]" from the first batch's c-th reading — and every column
holds exactly N parsed entries. -/
theorem df_shape_rows_columns (dl : List Batch)
    (hsl : sameLayoutB dl = true)
    (hcols : ((List.range (channelCount dl)).map
      (fun i => colName ((dl.headD []).getD i []))).Nodup) :
    ∃ df, add_channel_data_to_df (some dl) = some df ∧
      df.length = channelCount dl ∧
      ∀ c, c < channelCount dl →
        listNth df c = some (colName ((dl.headD []).getD c []),
          dl.map (fun row => parseReading ((row.getD c []).getD 1 ""))) ∧
        (dl.map (fun row => parseReading ((row.getD c []).getD 1 ""))).length
          = dl.length := by
  cases dl with
  | nil => simp [sameLayoutB] at hsl
  | cons first rest =>
      have hcols1 : ((List.range first.length).map
          (fun i => colName (first.getD i []))).Nodup := by
        simpa [channelCount] using hcols
      refine ⟨_, df_spec first rest hcols1, ?_, ?_⟩
      · simp [channelCount]
      · intro c hc
        have hc1 : c < first.length := by simpa [channelCount] using hc
        constructor
        · rw [listNth_map, listNth_range first.length c hc1]
          simp [channelCount]
        · simp

/-- Witness for the amended C5 on two polls of a two-channel layout. -/
theorem df_shape_rows_columns_witness :
    sameLayoutB dataTwoPolls = true ∧
    (∃ df, add_channel_data_to_df (some dataTwoPolls) = some df ∧
      df.length = channelCount dataTwoPolls ∧
      ∀ c, c < channelCount dataTwoPolls →
        listNth df c = some (colName ((dataTwoPolls.headD []).getD c []),
          dataTwoPolls.map
            (fun row => parseReading ((row.getD c []).getD 1 ""))) ∧
        (dataTwoPolls.map
          (fun row => parseReading ((row.getD c []).getD 1 ""))).length
          = dataTwoPolls.length) :=
  ⟨by decide, df_shape_rows_columns dataTwoPolls (by decide) (by decide)⟩

/-- Claim C6: the last-value map reads only the final poll batch — two
non-empty accumulations with the same final batch yield the same dict,
which is the dict built from that final batch alone. -/
theorem dict_depends_only_on_last_batch (dl1 dl2 : List Batch)
    (h1 : dl1 ≠ []) (h2 : dl2 ≠ [])
    (hlast : pyLast [] dl1 = pyLast [] dl2) :
    add_channel_data_to_dict (some dl1)
      = add_channel_data_to_dict (some dl2) ∧
    add_channel_data_to_dict (some dl1)
      = some (dictOf (pyLast [] dl1)) := by
  cases dl1 with
  | nil => exact absurd rfl h1
  | cons b1 t1 =>
      cases dl2 with
      | nil => exact absurd rfl h2
      | cons b2 t2 =>
          constructor
          · show some (dictOf (pyLast [] (b1 :: t1)))
              = some (dictOf (pyLast [] (b2 :: t2)))
            rw [hlast]
          · rfl

/-- Witness for C6: a two-poll history and a one-poll history sharing the
same final batch produce the same dict. -/
theorem dict_depends_only_on_last_batch_witness :
    dataHistLong ≠ [] ∧ dataHistShort ≠ [] ∧
    pyLast [] dataHistLong = pyLast [] dataHistShort ∧
    (add_channel_data_to_dict (some dataHistLong)
        = add_channel_data_to_dict (some dataHistShort) ∧
     add_channel_data_to_dict (some dataHistLong)
        = some (dictOf (pyLast [] dataHistLong))) :=
  ⟨by decide, by decide, by decide,
    dict_depends_only_on_last_batch dataHistLong dataHistShort
      (by decide) (by decide) (by decide)⟩

/-- Claim C7: with a reachable instrument whose identity contains the
expected name substring, `connect` returns true, and the `connected` flag
set from `connect`'s result at construction is true. -/
theorem connect_success_returns_true (env : Env) (addr n r : String)
    (hopen : env.openOutcome = OpenOutcome.ok)
    (hq : env.queryOutcome = QueryOutcome.ok r)
    (hname : pyIn n r = true) :
    connect env (initState addr n)
      = Except.ok ({ initState addr n with my_instrument := some (),
                                           ident := some r }, true) ∧
    ∃ s, graphtecInit env addr n = Except.ok s ∧ s.connected = true := by
  have hc : connect env (initState addr n)
      = Except.ok ({ initState addr n with my_instrument := some (),
                                           ident := some r }, true) := by
    simp [connect, hopen, identify_device, hq, initState, hname]
  refine ⟨hc, ?_⟩
  refine ⟨{ initState addr n with my_instrument := some (),
                                  ident := some r, connected := true },
    ?_, rfl⟩
  simp [graphtecInit, hc]

/-- Witness for C7: a GRAPHTEC identity makes construction succeed with the
connected flag true. -/
theorem connect_success_returns_true_witness :
    envGoodId.openOutcome = OpenOutcome.ok ∧
    envGoodId.queryOutcome = QueryOutcome.ok "GRAPHTEC,GL840,SN1" ∧
    pyIn "GRAPHTEC" "GRAPHTEC,GL840,SN1" = true ∧
    (connect envGoodId (initState "192.168.0.1" "GRAPHTEC")
      = Except.ok ({ initState "192.168.0.1" "GRAPHTEC" with
          my_instrument := some (),
          ident := some "GRAPHTEC,GL840,SN1" }, true) ∧
     ∃ s, graphtecInit envGoodId "192.168.0.1" "GRAPHTEC" = Except.ok s ∧
       s.connected = true) :=
  ⟨rfl, rfl, by decide,
    connect_success_returns_true envGoodId "192.168.0.1" "GRAPHTEC"
      "GRAPHTEC,GL840,SN1" rfl rfl (by decide)⟩

/-- Claim C8: `close` is not idempotent — on a session holding a resource
handle the first call releases the handle and nulls it, and a second call
raises `AttributeError` because the nulled handle has no `close`
method. -/
theorem close_not_idempotent (s : GraphtecState)
    (h : s.my_instrument = some ()) :
    close s = Except.ok { s with my_instrument := none } ∧
    close { s with my_instrument := none }
      = Except.error PyErr.attributeError := by
  constructor
  · simp [close, h]
  · simp [close]

/-- Witness for C8 at a concrete connected session. -/
theorem close_not_idempotent_witness :
    sampleState.my_instrument = some () ∧
    (close sampleState = Except.ok { sampleState with my_instrument := none } ∧
     close { sampleState with my_instrument := none }
       = Except.error PyErr.attributeError) :=
  ⟨rfl, close_not_idempotent sampleState rfl⟩

/-- Claim C9: for `data_list` equal to `None` or the empty list, both
reshapers print a notice and fall through without a return value, yielding
`None` and raising no exception. -/
theorem empty_input_returns_none :
    add_channel_data_to_df none = none ∧
    add_channel_data_to_df (some []) = none ∧
    add_channel_data_to_dict none = none ∧
    add_channel_data_to_dict (some []) = none :=
  ⟨rfl, rfl, rfl, rfl⟩

/-- Claim C10 fails as stated: in `cexDupLabels` two channels share the
label "A" with different units, the table keeps both channels' columns,
but the dict holds a single "A" entry carrying the second channel's value,
so channel 0's last table cell (value 1) differs from the dict's value for
its label (value 2). -/
theorem df_dict_disagree_on_duplicate_labels :
    sameLayoutB cexDupLabels = true ∧
    dfValueAt (add_channel_data_to_df (some cexDupLabels))
        (colName ((cexDupLabels.headD []).getD 0 []))
        (cexDupLabels.length - 1)
      = some (some (mkRat 1 1)) ∧
    dictValueAt (add_channel_data_to_dict (some cexDupLabels))
        (((cexDupLabels.headD []).getD 0 []).getD 0 "")
      = some (some (mkRat 2 1)) ∧
    ¬ dfValueAt (add_channel_data_to_df (some cexDupLabels))
        (colName ((cexDupLabels.headD []).getD 0 []))
        (cexDupLabels.length - 1)
      = dictValueAt (add_channel_data_to_dict (some cexDupLabels))
        (((cexDupLabels.headD []).getD 0 []).getD 0 "") := by
  refine ⟨by decide, by decide, by decide, by decide⟩

/-- Claim C10 (amended): under the layout invariant, with distinct column
names and distinct channel labels, the last row of each channel's table
column equals the dict's value for that channel's label — both are the
same parse of the final batch's raw text for that channel. -/
theorem df_dict_agree_on_last_poll (dl : List Batch) (c : Nat)
    (hsl : sameLayoutB dl = true)
    (hcols : ((List.range (channelCount dl)).map
      (fun i => colName ((dl.headD []).getD i []))).Nodup)
    (hlabels : ((dl.headD []).map (fun rd => rd.getD 0 "")).Nodup)
    (hc : c < channelCount dl) :
    dfValueAt (add_channel_data_to_df (some dl))
        (colName ((dl.headD []).getD c [])) (dl.length - 1)
      = dictValueAt (add_channel_data_to_dict (some dl))
        (((dl.headD []).getD c []).getD 0 "") ∧
    dfValueAt (add_channel_data_to_df (some dl))
        (colName ((dl.headD []).getD c [])) (dl.length - 1)
      = some (parseReading (cellTextAt dl (dl.length - 1) c)) := by
  have hne := sameLayout_ne_nil dl hsl
  have hr : dl.length - 1 < dl.length := by
    cases dl with
    | nil => exact absurd rfl hne
    | cons a t => simp only [List.length_cons]; omega
  have hdf := dfValueAt_spec dl (dl.length - 1) c hsl hcols hr hc
  have hdict := dictValueAt_spec dl c hsl hlabels hc
  exact ⟨hdf.trans hdict.symm, hdf⟩

/-- Witness for the amended C10 on two polls of a two-channel layout. -/
theorem df_dict_agree_on_last_poll_witness :
    sameLayoutB dataTwoPolls = true ∧
    (0 : Nat) < channelCount dataTwoPolls ∧
    (dfValueAt (add_channel_data_to_df (some dataTwoPolls))
        (colName ((dataTwoPolls.headD []).getD 0 []))
        (dataTwoPolls.length - 1)
      = dictValueAt (add_channel_data_to_dict (some dataTwoPolls))
        (((dataTwoPolls.headD []).getD 0 []).getD 0 "") ∧
     dfValueAt (add_channel_data_to_df (some dataTwoPolls))
        (colName ((dataTwoPolls.headD []).getD 0 []))
        (dataTwoPolls.length - 1)
      = some (parseReading (cellTextAt dataTwoPolls
          (dataTwoPolls.length - 1) 0))) :=
  ⟨by decide, by decide,
    df_dict_agree_on_last_poll dataTwoPolls 0 (by decide) (by decide)
      (by decide) (by decide)⟩

/- Sanity checks of the value-parsing and substring models on the
vocabulary seen in `GL840.py`'s comments and docstrings. -/
example : pyFloat "+21.48" = some (mkRat 537 25) := by decide
example : pyFloat "BURNOUT" = none := by decide
example : parseReading "+ 21.48" = some (mkRat 537 25) := by decide
example : parseReading "-------" = none := by decide
example : pyFloat "1." = some (mkRat 1 1) := by decide
example : pyFloat ".5" = some (mkRat 1 2) := by decide
example : pyFloat "" = none := by decide
example : pyFloat "1.2.3" = none := by decide
example : pyIn "GRAPHTEC" "GRAPHTEC,GL840,SN1" = true := by decide
example : pyIn "GRAPHTEC" "WRONG,DEV,1" = false := by decide
example :
    add_channel_data_to_df (some [[["CH 1", "+ 1.0", "degC"], ["CH 1", "+ 2.0", "degC"]]])
      = some [("GRPH CH 1 [degC]", [some (mkRat 2 1)])] := by decide
example :
    add_channel_data_to_dict (some [[["A", "1", "x"], ["A", "2", "y"]]])
      = some [("A", some (mkRat 2 1))] := by decide
example :
    sameLayoutB [[["CH 1", "BURNOUT", "degC"], ["CH 2", "+ 21.48", "degC"]]] = true := by decide

end GL840
